import Mathlib

/-!
Shallow embedding of the webchatapp socket server (src/index.js, with the
variant handlers of src/unnamed/part_000 where they differ).

The server is a single-threaded Node event loop.  We model the processing of
one inbound socket event to quiescence: the handler body runs synchronously;
an `await pool.query(...)` executes the query inline; a fire-and-forget
`pool.query(sql, params, callback)` enqueues the query, whose execution and
callback run only after the synchronous part of the handler has finished.
Each handler therefore returns the successor server state together with the
ordered list of observable actions (query issues/completions and socket
emissions) it produces, in that event-loop order.

Store timestamps (`timestamp TIMESTAMPTZ DEFAULT CURRENT_TIMESTAMP`) are
modelled by a per-database counter `now` that increases at every insert, so
timestamps are store-assigned and monotonically increasing.
-/

namespace WebChat

/-- Model of the external bcrypt library: `bcrypt.hash(p, 10)`.  The salt and
cost factor are irrelevant to the claims; we keep only the contract that
hashing is deterministic here and `compare` succeeds exactly on the hashed
password. -/
def bcryptHash (p : String) : String := "bcrypt$10$" ++ p

/-- Model of `bcrypt.compare(password, hash)`. -/
def bcryptCompare (password hash : String) : Bool := hash == bcryptHash password

/-- A row of the `users` table: `username TEXT UNIQUE, password TEXT` (nullable),
`online BOOLEAN DEFAULT FALSE`. -/
structure UserRow where
  username : String
  password : Option String
  online : Bool
deriving DecidableEq

/-- A row of the `messages` table: `sender, receiver, message TEXT,
timestamp TIMESTAMPTZ DEFAULT CURRENT_TIMESTAMP`. -/
structure MessageRow where
  sender : String
  receiver : String
  message : String
  timestamp : Nat
deriving DecidableEq

/-- The PostgreSQL database: both tables plus the store clock used to assign
`CURRENT_TIMESTAMP` at inserts. -/
structure Db where
  users : List UserRow
  messages : List MessageRow
  now : Nat
deriving DecidableEq

/-- One value of the in-memory map `const users = {}`:
`{socketId: socketId, online: boolean}`. -/
structure PresenceEntry where
  socketId : Nat
  online : Bool
deriving DecidableEq

/-- Whole-server state: the database, the in-memory presence map
`users` (username to entry), and the per-socket `socket.username` bindings
(socket id to bound username; a socket id absent from the map is an
anonymous connection). -/
structure ServerState where
  db : Db
  users : List (String × PresenceEntry)
  sockets : List (Nat × String)
deriving DecidableEq

/-- The JS object `const message = { from: socket.username, msg, to }` built in
the chat-message handler; `ptimestamp` is `none` when the object carries no
timestamp field (src/index.js builds it without one). -/
structure ChatPayload where
  pfrom : String
  pto : String
  pmsg : String
  ptimestamp : Option Nat
deriving DecidableEq

/-- One element of a `chat history` payload, as mapped from a row by
`loadPrivateMessageHistory`: `{from, to, msg, timestamp}`. -/
structure HistMsg where
  hfrom : String
  hto : String
  hmsg : String
  timestamp : Nat
deriving DecidableEq

/-- Observable actions of one handler run, in event-loop order. -/
inductive Act where
  /-- `pool.query('INSERT INTO messages ...')` is issued (the call in
  `saveMessage`); the row is not yet durable. -/
  | insertIssued (sender receiver message : String)
  /-- the INSERT has executed at the store and its callback ran; the row with
  its store-assigned timestamp is durable from this point on. -/
  | insertCompleted (sender receiver message : String) (timestamp : Nat)
  /-- `socket.emit('chat message', message)` / `io.to(sid).emit('chat message', message)`. -/
  | emitChatMessage (target : Nat) (payload : ChatPayload)
  /-- `io.to(sid).emit('new message notification', {from, msg})`. -/
  | emitNotification (target : Nat) (nfrom nmsg : String)
  /-- `socket.emit('chat history', messages)`. -/
  | emitChatHistory (target : Nat) (messages : List HistMsg)
  /-- `socket.emit('login failed', reason)`. -/
  | emitLoginFailed (target : Nat) (reason : String)
  /-- `socket.emit('require password setup')`. -/
  | emitRequirePasswordSetup (target : Nat)
  /-- `socket.emit('password setup successful')`. -/
  | emitPasswordSetupSuccessful (target : Nat)
  /-- `socket.emit('setup failed', reason)`. -/
  | emitSetupFailed (target : Nat) (reason : String)
  /-- `socket.emit('prompt signup', reason)` (part_000 only). -/
  | emitPromptSignup (target : Nat) (reason : String)
  /-- `socket.emit('login success', username)` (part_000 only). -/
  | emitLoginSuccess (target : Nat) (username : String)
  /-- `io.emit('users list', userList)`: the roster broadcast to all open
  connections produced by `updateUsersList`. -/
  | usersListBroadcast (userList : List (String × Bool))
deriving DecidableEq

/-- `SELECT * FROM users WHERE username = $1` followed by `rows[0]`. -/
def findUser (db : Db) (username : String) : Option UserRow :=
  db.users.find? (fun r => r.username == username)

/-- `UPDATE users SET online = b WHERE username = $1`. -/
def setOnline (db : Db) (username : String) (b : Bool) : Db :=
  { db with users := db.users.map (fun r =>
      if r.username == username then { r with online := b } else r) }

/-- `UPDATE users SET password = $1 WHERE username = $2` (affects zero rows,
and still succeeds, when no row has that username). -/
def setPassword (db : Db) (username hash : String) : Db :=
  { db with users := db.users.map (fun r =>
      if r.username == username then { r with password := some hash } else r) }

/-- Execution of `INSERT INTO messages (sender, receiver, message) VALUES ...`;
the store assigns `timestamp = CURRENT_TIMESTAMP` (the clock `now`). -/
def insertMessage (db : Db) (sender receiver message : String) : Db :=
  { db with messages := db.messages ++ [⟨sender, receiver, message, db.now⟩],
            now := db.now + 1 }

/-- JS object assignment `users[username] = v` on the in-memory presence map. -/
def regSet (m : List (String × PresenceEntry)) (username : String)
    (v : PresenceEntry) : List (String × PresenceEntry) :=
  (username, v) :: m.filter (fun p => p.1 != username)

/-- `socket.username = username`, keyed by the socket id. -/
def sockSet (m : List (Nat × String)) (sid : Nat) (username : String) :
    List (Nat × String) :=
  (sid, username) :: m.filter (fun p => p.1 != sid)

/-- Removal of a closed socket's per-socket state. -/
def sockRemove (m : List (Nat × String)) (sid : Nat) : List (Nat × String) :=
  m.filter (fun p => p.1 != sid)

/-- Body of `updateUsersList`: `SELECT username, online FROM users` mapped to
`{username, online}` pairs; the resulting list is broadcast with `io.emit`. -/
def updateUsersList (db : Db) : List (String × Bool) :=
  db.users.map (fun r => (r.username, r.online))

/-- The row-to-payload mapping in `loadPrivateMessageHistory`:
`{from: row.sender, to: row.receiver, msg: row.message, timestamp: row.timestamp}`. -/
def msgView (r : MessageRow) : HistMsg :=
  ⟨r.sender, r.receiver, r.message, r.timestamp⟩

/-- `ORDER BY timestamp ASC`, modelled as a (stable) insertion sort on the
row timestamps. -/
def sortByTimestamp (rows : List MessageRow) : List MessageRow :=
  rows.insertionSort (fun a b => a.timestamp ≤ b.timestamp)

/-- `loadPrivateMessageHistory(user1, user2, callback)` of src/index.js:
with `user2` set, the conversation
`WHERE (sender = $1 AND receiver = $2) OR (sender = $2 AND receiver = $1)`;
with `user2` null, `WHERE sender = $1 OR receiver = $1`; both
`ORDER BY timestamp ASC`, rows mapped through `msgView`.  A query matching no
rows yields `[]`. -/
def loadPrivateMessageHistory (user1 : String) (user2 : Option String)
    (db : Db) : List HistMsg :=
  let rows := match user2 with
    | some u2 => db.messages.filter (fun r =>
        (r.sender == user1 && r.receiver == u2) ||
        (r.sender == u2 && r.receiver == user1))
    | none => db.messages.filter (fun r =>
        r.sender == user1 || r.receiver == user1)
  (sortByTimestamp rows).map msgView

/-- Which Credential Store call (if any) fails during a login attempt; the
code wraps the handler body in try/catch, so a failure jumps to the catch
block at the point the failing call was awaited. -/
inductive LoginErr where
  | noErr
  | selectFails
  | updateFails
deriving DecidableEq

/-- `socket.on('login', ...)` of src/index.js.  On a password match the code
sets `socket.username = username` FIRST, then awaits
`UPDATE users SET online = TRUE`; if that update throws, the catch block
emits `login failed` but the username binding set before the await remains.
On full success it sets the presence entry, then `updateUsersList()` enqueues
the roster SELECT and `loadPrivateMessageHistory(username, null, ...)`
enqueues the history SELECT, so the broadcast and the history emission follow
in that order, both reading the already-updated database.  (This variant
emits no success event.) -/
def loginHandler (s : ServerState) (sid : Nat) (username password : String)
    (e : LoginErr) : ServerState × List Act :=
  match e with
  | .selectFails => (s, [.emitLoginFailed sid "An error occurred."])
  | _ =>
    match findUser s.db username with
    | some user =>
      match user.password with
      | none => (s, [.emitRequirePasswordSetup sid])
      | some h =>
        if bcryptCompare password h then
          let s1 : ServerState := { s with sockets := sockSet s.sockets sid username }
          match e with
          | .updateFails => (s1, [.emitLoginFailed sid "An error occurred."])
          | _ =>
            let db1 := setOnline s1.db username true
            let s2 : ServerState :=
              { s1 with db := db1, users := regSet s1.users username ⟨sid, true⟩ }
            (s2, [.usersListBroadcast (updateUsersList db1),
                  .emitChatHistory sid (loadPrivateMessageHistory username none db1)])
        else
          (s, [.emitLoginFailed sid "Invalid password."])
    | none => (s, [.emitLoginFailed sid "User does not exist."])

/-- `socket.on('setup password', ...)` of src/index.js: unconditionally hashes
and runs `UPDATE users SET password = $1 WHERE username = $2`, then emits
`password setup successful` — no existence check, no check that the user had
no password, no username binding, no presence registration, no history load.
`fails` models the try/catch around the hash and the update. -/
def setupPasswordHandler (s : ServerState) (sid : Nat)
    (username password : String) (fails : Bool) : ServerState × List Act :=
  if fails then
    (s, [.emitSetupFailed sid "Password setup failed."])
  else
    ({ s with db := setPassword s.db username (bcryptHash password) },
     [.emitPasswordSetupSuccessful sid])

/-- `socket.on('chat message', ...)` of src/index.js: drop if anonymous;
build `message = {from, msg, to}` locally (no timestamp field); issue the
INSERT via `saveMessage` (fire and forget); synchronously deliver to the
recipient's socket when the presence map says online, then echo to the
sender; the INSERT itself executes only after the handler returns, so the
`insertCompleted` action comes last and carries the store-assigned
timestamp. -/
def chatMessageHandler (s : ServerState) (sid : Nat) (toUser msg : String) :
    ServerState × List Act :=
  match s.sockets.lookup sid with
  | none => (s, [])
  | some u =>
    let message : ChatPayload := ⟨u, toUser, msg, none⟩
    let deliver : List Act :=
      match s.users.lookup toUser with
      | some entry =>
        if entry.online then
          [.emitChatMessage entry.socketId message,
           .emitNotification entry.socketId u msg]
        else []
      | none => []
    ({ s with db := insertMessage s.db u toUser msg },
     [Act.insertIssued u toUser msg] ++ deliver ++
     [Act.emitChatMessage sid message,
      Act.insertCompleted u toUser msg s.db.now])

/-- `socket.on('load messages', ...)` of src/index.js: if authenticated, run
`loadPrivateMessageHistory(socket.username, user, ...)` and emit the result
as `chat history`. -/
def loadMessagesHandler (s : ServerState) (sid : Nat) (user : Option String) :
    ServerState × List Act :=
  match s.sockets.lookup sid with
  | none => (s, [])
  | some u => (s, [.emitChatHistory sid (loadPrivateMessageHistory u user s.db)])

/-- `socket.on('disconnect', ...)` of src/index.js: if the socket was bound,
enqueue `UPDATE users SET online = FALSE`; its callback (running after the
handler) sets `users[socket.username].online = false` and calls
`updateUsersList()`.  When the presence map has no entry for the username,
that assignment throws, so neither the map nor the broadcast happens (the
database update already succeeded).  `fails` models the UPDATE erroring, in
which case the callback only logs.  The closed socket's per-socket state is
gone in every case. -/
def disconnectHandler (s : ServerState) (sid : Nat) (fails : Bool) :
    ServerState × List Act :=
  match s.sockets.lookup sid with
  | none => ({ s with sockets := sockRemove s.sockets sid }, [])
  | some u =>
    let s0 : ServerState := { s with sockets := sockRemove s.sockets sid }
    if fails then (s0, [])
    else
      let db1 := setOnline s0.db u false
      match s0.users.lookup u with
      | some entry =>
        ({ s0 with db := db1,
                   users := regSet s0.users u { entry with online := false } },
         [.usersListBroadcast (updateUsersList db1)])
      | none => ({ s0 with db := db1 }, [])

/-- Inbound socket events of src/index.js, tagged with the connection's
socket id; store-failure oracles are part of the event. -/
inductive Event where
  | login (sid : Nat) (username password : String) (e : LoginErr)
  | setupPassword (sid : Nat) (username password : String) (fails : Bool)
  | chatMessage (sid : Nat) (toUser msg : String)
  | loadMessages (sid : Nat) (user : Option String)
  | disconnect (sid : Nat) (fails : Bool)
deriving DecidableEq

/-- Dispatch of one inbound event to its handler. -/
def step (s : ServerState) (ev : Event) : ServerState × List Act :=
  match ev with
  | .login sid u p e => loginHandler s sid u p e
  | .setupPassword sid u p f => setupPasswordHandler s sid u p f
  | .chatMessage sid t m => chatMessageHandler s sid t m
  | .loadMessages sid user => loadMessagesHandler s sid user
  | .disconnect sid f => disconnectHandler s sid f

/-- Server state at process start: the given persistent database, empty
presence map, no sockets. -/
def initState (db0 : Db) : ServerState := ⟨db0, [], []⟩

/-- State after processing a sequence of events from process start. -/
def run (db0 : Db) (evs : List Event) : ServerState :=
  evs.foldl (fun s ev => (step s ev).1) (initState db0)

/-- The Roster Broadcaster contract as the spec words it: for every User in
the Credential Store, the pair (username, online flag from the Presence
Registry when an entry for that username is present, else the stored
flag). -/
def rosterFromSpec (db : Db) (reg : List (String × PresenceEntry)) :
    List (String × Bool) :=
  db.users.map (fun r =>
    (r.username,
     match reg.lookup r.username with
     | some entry => entry.online
     | none => r.online))

/-- Consistency of the presence map with the stored online flags: every user
row whose username has a presence entry carries the same online flag as that
entry. -/
def Inv (s : ServerState) : Prop :=
  ∀ r ∈ s.db.users, ∀ entry, s.users.lookup r.username = some entry →
    entry.online = r.online

namespace Part000

/-- `loadPrivateMessageHistory(user1, user2, callback)` of
src/unnamed/part_000: with `user2` set, the same conversation query as
src/index.js; with `user2` null this variant runs no query and calls
`callback([])` directly. -/
def loadPrivateMessageHistory (user1 : String) (user2 : Option String)
    (db : Db) : List HistMsg :=
  match user2 with
  | some u2 =>
    (sortByTimestamp (db.messages.filter (fun r =>
        (r.sender == user1 && r.receiver == u2) ||
        (r.sender == u2 && r.receiver == user1)))).map msgView
  | none => []

/-- Helper `loginUser(socket, username)` of src/unnamed/part_000 (its awaited
UPDATE has already succeeded when this runs; a failure is handled by the
caller's catch): set presence entry, bind the username, emit
`login success`, call `updateUsersList()` (enqueues the roster SELECT) and
`loadPrivateMessageHistory(username, null, ...)` — which in this variant
calls back synchronously with `[]`, so the history emission precedes the
roster broadcast. -/
def loginUser (s : ServerState) (sid : Nat) (username : String) :
    ServerState × List Act :=
  let db1 := setOnline s.db username true
  let s1 : ServerState :=
    { s with db := db1,
             users := regSet s.users username ⟨sid, true⟩,
             sockets := sockSet s.sockets sid username }
  (s1, [.emitLoginSuccess sid username,
        .emitChatHistory sid (loadPrivateMessageHistory username none db1),
        .usersListBroadcast (updateUsersList db1)])

/-- `socket.on('login', ...)` of src/unnamed/part_000: an absent user or a
passwordless user is answered with `prompt signup`; a hash match runs
`loginUser`; a store error anywhere in the try block emits `login failed`. -/
def login (s : ServerState) (sid : Nat) (username password : String)
    (e : LoginErr) : ServerState × List Act :=
  match e with
  | .selectFails =>
    (s, [.emitLoginFailed sid "An error occurred during login. Please try again."])
  | _ =>
    match findUser s.db username with
    | some user =>
      match user.password with
      | none =>
        (s, [.emitPromptSignup sid
              "User exists but no password set. Would you like to set a password?"])
      | some h =>
        if bcryptCompare password h then
          match e with
          | .updateFails =>
            (s, [.emitLoginFailed sid
                  "An error occurred during login. Please try again."])
          | _ => loginUser s sid username
        else (s, [.emitLoginFailed sid "Invalid password."])
    | none =>
      (s, [.emitPromptSignup sid "User not found. Would you like to sign up?"])

/-- `socket.on('load messages', ...)` of src/unnamed/part_000: if
authenticated, a request naming a user queries the conversation; a request
with no user emits `chat history` with `[]` directly. -/
def loadMessagesHandler (s : ServerState) (sid : Nat) (user : Option String) :
    ServerState × List Act :=
  match s.sockets.lookup sid with
  | none => (s, [])
  | some u =>
    match user with
    | some u2 =>
      (s, [.emitChatHistory sid (loadPrivateMessageHistory u (some u2) s.db)])
    | none => (s, [.emitChatHistory sid []])

end Part000

/-! ### Shared lemmas about the association-list operations -/

theorem lookup_filter_ne {α β : Type} [BEq α] [LawfulBEq α]
    (m : List (α × β)) (k k' : α) (h : k' ≠ k) :
    (m.filter (fun p => p.1 != k)).lookup k' = m.lookup k' := by
  induction m with
  | nil => rfl
  | cons a t ih =>
    obtain ⟨ka, va⟩ := a
    by_cases hak : ka = k
    · subst hak
      have h2 : (k' == ka) = false := by
        simp only [beq_eq_false_iff_ne, ne_eq]; exact h
      simp [List.lookup, h2, ih]
    · have h1 : (ka != k) = true := by simp [bne_iff_ne]; exact hak
      cases hka : (k' == ka) with
      | true => simp [List.lookup, h1, hka]
      | false => simp [List.lookup, h1, hka, ih]

theorem lookup_regSet_self (m : List (String × PresenceEntry)) (k : String)
    (v : PresenceEntry) : (regSet m k v).lookup k = some v := by
  simp [regSet, List.lookup]

theorem lookup_regSet_ne (m : List (String × PresenceEntry)) (k k' : String)
    (v : PresenceEntry) (h : k' ≠ k) :
    (regSet m k v).lookup k' = m.lookup k' := by
  have h2 : (k' == k) = false := by
    simp only [beq_eq_false_iff_ne, ne_eq]; exact h
  simp only [regSet, List.lookup, h2]
  exact lookup_filter_ne m k k' h

instance : IsTotal MessageRow (fun a b => a.timestamp ≤ b.timestamp) :=
  ⟨fun a b => Nat.le_total a.timestamp b.timestamp⟩

instance : IsTrans MessageRow (fun a b => a.timestamp ≤ b.timestamp) :=
  ⟨fun _ _ _ => Nat.le_trans⟩

/-! ### Concrete scenario used by the counterexamples and witnesses -/

/-- A two-user database: alice and bob exist with passwords set, both
offline, no messages. -/
def sampleDb : Db :=
  ⟨[⟨"alice", some (bcryptHash "pw1"), false⟩,
    ⟨"bob", some (bcryptHash "pw2"), false⟩], [], 0⟩

/-- The reachable state after alice (socket 1) and bob (socket 2) both log in
successfully. -/
def sampleState : ServerState :=
  run sampleDb [.login 1 "alice" "pw1" .noErr, .login 2 "bob" "pw2" .noErr]

/-! ### C1 -/

/-- C1, counterexample: with alice and bob logged in, alice sends "hi" to
bob.  The live delivery to bob's socket occurs strictly before the INSERT
completes (the handler only issues the fire-and-forget insert, whose
callback runs after the synchronous emits), so the claim that the message is
delivered only after the insert completes is false on this input. -/
theorem chat_message_delivery_precedes_insert_completion :
    (∃ j : Fin (chatMessageHandler sampleState 1 "bob" "hi").2.length,
      (chatMessageHandler sampleState 1 "bob" "hi").2.get j =
        Act.emitChatMessage 2 ⟨"alice", "bob", "hi", none⟩) ∧
    (∃ i : Fin (chatMessageHandler sampleState 1 "bob" "hi").2.length,
      (chatMessageHandler sampleState 1 "bob" "hi").2.get i =
        Act.insertCompleted "alice" "bob" "hi" 0) ∧
    (∀ i j : Fin (chatMessageHandler sampleState 1 "bob" "hi").2.length,
      (chatMessageHandler sampleState 1 "bob" "hi").2.get i =
          Act.insertCompleted "alice" "bob" "hi" 0 →
      (chatMessageHandler sampleState 1 "bob" "hi").2.get j =
          Act.emitChatMessage 2 ⟨"alice", "bob", "hi", none⟩ →
      j < i) := by decide

/-- C1 (amended): for every send from an authenticated connection the INSERT
into the Message Store is issued first, before any delivery or echo is
emitted, and the echo (and, when the receiver is online, the delivery) is
always emitted; but the handler does not wait for the insert, which
completes only after the delivery and the echo. -/
theorem chat_message_persist_issue_precedes_emits
    (s : ServerState) (sid : Nat) (toUser msg u : String)
    (hb : s.sockets.lookup sid = some u) :
    ((chatMessageHandler s sid toUser msg).2.head? =
      some (Act.insertIssued u toUser msg)) ∧
    ((chatMessageHandler s sid toUser msg).2.getLast? =
      some (Act.insertCompleted u toUser msg s.db.now)) ∧
    Act.emitChatMessage sid ⟨u, toUser, msg, none⟩ ∈
      (chatMessageHandler s sid toUser msg).2 ∧
    (∀ entry, s.users.lookup toUser = some entry → entry.online = true →
      Act.emitChatMessage entry.socketId ⟨u, toUser, msg, none⟩ ∈
        (chatMessageHandler s sid toUser msg).2) := by
  cases hl : s.users.lookup toUser with
  | none => simp [chatMessageHandler, hb, hl, List.getLast?]
  | some entry =>
    cases ho : entry.online with
    | true => simp [chatMessageHandler, hb, hl, ho, List.getLast?]
    | false => simp [chatMessageHandler, hb, hl, ho, List.getLast?]

/-- Witness for C1's amended theorem at the concrete two-user scenario. -/
theorem chat_message_persist_issue_precedes_emits_witness :
    sampleState.sockets.lookup 1 = some "alice" ∧
    ((chatMessageHandler sampleState 1 "bob" "hi").2.head? =
      some (Act.insertIssued "alice" "bob" "hi")) :=
  ⟨by decide,
   (chat_message_persist_issue_precedes_emits sampleState 1 "bob" "hi" "alice"
      (by decide)).1⟩

/-! ### C5 -/

/-- C5, counterexample: the full action trace of alice's send to bob.  The
echo to the sender (socket 1) carries the locally-constructed payload with
no timestamp field, while the durable row gets the store-assigned
timestamp 0: the echo is not the durable canonical copy. -/
theorem echo_carries_no_store_timestamp :
    (chatMessageHandler sampleState 1 "bob" "hi").2 =
      [Act.insertIssued "alice" "bob" "hi",
       Act.emitChatMessage 2 ⟨"alice", "bob", "hi", none⟩,
       Act.emitNotification 2 "alice" "hi",
       Act.emitChatMessage 1 ⟨"alice", "bob", "hi", none⟩,
       Act.insertCompleted "alice" "bob" "hi" 0] ∧
    ((⟨"alice", "bob", "hi", 0⟩ : MessageRow) ∈
      (chatMessageHandler sampleState 1 "bob" "hi").1.db.messages) ∧
    (∀ a ∈ (chatMessageHandler sampleState 1 "bob" "hi").2,
      (match a with
       | Act.emitChatMessage 1 payload => payload.ptimestamp == none
       | _ => true) = true) := by decide

/-- C5 (amended): the sender always receives an echo chat-message event, but
it carries the locally-constructed object (from, to, msg) with no
store-assigned timestamp field, while the durable row in the Message Store
carries the store-assigned timestamp the echo lacks. -/
theorem echo_is_local_copy_without_timestamp
    (s : ServerState) (sid : Nat) (toUser msg u : String)
    (hb : s.sockets.lookup sid = some u) :
    Act.emitChatMessage sid ⟨u, toUser, msg, none⟩ ∈
      (chatMessageHandler s sid toUser msg).2 ∧
    (⟨u, toUser, msg, s.db.now⟩ : MessageRow) ∈
      (chatMessageHandler s sid toUser msg).1.db.messages := by
  cases hl : s.users.lookup toUser with
  | none => simp [chatMessageHandler, hb, hl, insertMessage]
  | some entry =>
    cases ho : entry.online with
    | true => simp [chatMessageHandler, hb, hl, ho, insertMessage]
    | false => simp [chatMessageHandler, hb, hl, ho, insertMessage]

/-- Witness for C5's amended theorem at the concrete two-user scenario. -/
theorem echo_is_local_copy_without_timestamp_witness :
    Act.emitChatMessage 1 ⟨"alice", "bob", "hi", none⟩ ∈
      (chatMessageHandler sampleState 1 "bob" "hi").2 :=
  (echo_is_local_copy_without_timestamp sampleState 1 "bob" "hi" "alice"
    (by decide)).1

/-! ### C6 -/

/-- C6, counterexample: a login for a username absent from the store on the
src/index.js variant answers with the generic `login failed` event (reason
"User does not exist."), not with any prompt-signup / needs-signup event;
the state is unchanged. -/
theorem absent_user_login_failed_not_prompt :
    loginHandler (initState sampleDb) 1 "carol" "x" .noErr =
      (initState sampleDb, [Act.emitLoginFailed 1 "User does not exist."]) ∧
    (∀ a ∈ (loginHandler (initState sampleDb) 1 "carol" "x" .noErr).2,
      (match a with
       | Act.emitPromptSignup _ _ => false
       | _ => true) = true) := by decide

/-- C6 (amended): a login attempt with a username absent from the Credential
Store leaves the connection Anonymous and the whole state unchanged in both
variants, but the signalled event differs: src/index.js emits the generic
`login failed` with reason "User does not exist.", while src/unnamed/part_000
emits `prompt signup`. -/
theorem absent_user_login_outcomes
    (s : ServerState) (sid : Nat) (username password : String)
    (h : findUser s.db username = none) :
    loginHandler s sid username password .noErr =
      (s, [Act.emitLoginFailed sid "User does not exist."]) ∧
    Part000.login s sid username password .noErr =
      (s, [Act.emitPromptSignup sid
            "User not found. Would you like to sign up?"]) := by
  constructor <;> simp [loginHandler, Part000.login, h]

/-- Witness for C6's amended theorem: the username "carol" is absent from
the sample database. -/
theorem absent_user_login_outcomes_witness :
    loginHandler (initState sampleDb) 1 "carol" "x" .noErr =
      (initState sampleDb, [Act.emitLoginFailed 1 "User does not exist."]) :=
  (absent_user_login_outcomes (initState sampleDb) 1 "carol" "x"
    (by decide)).1

/-! ### C3 -/

/-- C3, counterexample: alice already has a password in the sample database,
yet `setup password` succeeds and replaces it with the hash of the new one —
the handler checks neither that the user exists nor that no password is set,
and it does not run login's success path (no username binding, no presence
entry). -/
theorem setup_password_overwrites_existing_password :
    ((findUser sampleDb "alice").map (fun r => r.password) =
      some (some (bcryptHash "pw1"))) ∧
    ((setupPasswordHandler (initState sampleDb) 1 "alice" "newpw" false).2 =
      [Act.emitPasswordSetupSuccessful 1]) ∧
    ((findUser (setupPasswordHandler (initState sampleDb) 1 "alice" "newpw"
        false).1.db "alice").map (fun r => r.password) =
      some (some (bcryptHash "newpw"))) ∧
    ((setupPasswordHandler (initState sampleDb) 1 "alice" "newpw"
        false).1.sockets = []) ∧
    ((setupPasswordHandler (initState sampleDb) 1 "alice" "newpw"
        false).1.users = []) := by decide

/-- C3 (amended): `setup password` unconditionally hashes and stores the
password for the given username — it succeeds even when that user already
has a password, overwriting it — and on success the src/index.js handler
only emits `password setup successful`: it does not bind the username,
register presence, or proceed with login's success path. -/
theorem setup_password_unconditional_update
    (s : ServerState) (sid : Nat) (username password : String) (r : UserRow)
    (hr : r ∈ s.db.users) (hu : r.username = username) :
    ((setupPasswordHandler s sid username password false).2 =
      [Act.emitPasswordSetupSuccessful sid]) ∧
    ({ r with password := some (bcryptHash password) } ∈
      (setupPasswordHandler s sid username password false).1.db.users) ∧
    ((setupPasswordHandler s sid username password false).1.sockets =
      s.sockets) ∧
    ((setupPasswordHandler s sid username password false).1.users =
      s.users) := by
  refine ⟨rfl, ?_, rfl, rfl⟩
  show ({ r with password := some (bcryptHash password) } : UserRow) ∈
    s.db.users.map (fun rr =>
      if rr.username == username then
        { rr with password := some (bcryptHash password) }
      else rr)
  have he : ({ r with password := some (bcryptHash password) } : UserRow) =
      if r.username == username then
        { r with password := some (bcryptHash password) }
      else r := by simp [hu]
  rw [he]
  exact List.mem_map_of_mem _ hr

/-- Witness for C3's amended theorem: alice exists in the sample database
(and already has a password there). -/
theorem setup_password_unconditional_update_witness :
    (setupPasswordHandler (initState sampleDb) 1 "alice" "newpw" false).2 =
      [Act.emitPasswordSetupSuccessful 1] :=
  (setup_password_unconditional_update (initState sampleDb) 1 "alice" "newpw"
    ⟨"alice", some (bcryptHash "pw1"), false⟩ (by decide) rfl).1

/-! ### C2 -/

/-- C2 (code evaluation at the failing input): a login for alice with the
correct password during which the `UPDATE users SET online = TRUE` store
call fails.  The connection receives `login failed`, yet `socket.username`
was assigned before the awaited update and is not rolled back: the binding
survives, no presence entry is created, and the "failed" connection is in
fact authenticated — a subsequent chat-message send from it is accepted
(non-empty action trace) rather than dropped. -/
theorem login_update_error_leaves_username_bound :
    ((loginHandler (initState sampleDb) 1 "alice" "pw1" .updateFails).2 =
      [Act.emitLoginFailed 1 "An error occurred."]) ∧
    ((loginHandler (initState sampleDb) 1 "alice" "pw1"
        .updateFails).1.sockets.lookup 1 = some "alice") ∧
    ((loginHandler (initState sampleDb) 1 "alice" "pw1"
        .updateFails).1.users.lookup "alice" = none) ∧
    ((chatMessageHandler (loginHandler (initState sampleDb) 1 "alice" "pw1"
        .updateFails).1 1 "bob" "x").2 ≠ []) := by decide

/-! ### C7 -/

/-- C7: a login with an existing username whose stored hash does not match
the supplied password emits exactly `login failed` ("Invalid password.") and
returns the state unchanged — no online-flag flip in the store, no presence
change, no username binding — and any number of repeated attempts
(unlimited retries) still leaves the state unchanged. -/
theorem wrong_password_login_failed_no_change
    (s : ServerState) (sid : Nat) (username password hash : String)
    (r : UserRow) (hr : findUser s.db username = some r)
    (hp : r.password = some hash) (hm : bcryptCompare password hash = false) :
    loginHandler s sid username password .noErr =
      (s, [Act.emitLoginFailed sid "Invalid password."]) ∧
    ∀ n : Nat,
      (fun st => (loginHandler st sid username password .noErr).1)^[n] s = s := by
  have h1 : loginHandler s sid username password .noErr =
      (s, [Act.emitLoginFailed sid "Invalid password."]) := by
    simp [loginHandler, hr, hp, hm]
  refine ⟨h1, ?_⟩
  intro n
  induction n with
  | zero => rfl
  | succ k ih => simp [Function.iterate_succ_apply', ih, h1]

/-- Witness for C7 at the concrete store: alice exists with the hash of
"pw1" and attempts the wrong password. -/
theorem wrong_password_login_failed_no_change_witness :
    loginHandler (initState sampleDb) 1 "alice" "wrong" .noErr =
      (initState sampleDb, [Act.emitLoginFailed 1 "Invalid password."]) :=
  (wrong_password_login_failed_no_change (initState sampleDb) 1 "alice"
    "wrong" (bcryptHash "pw1") ⟨"alice", some (bcryptHash "pw1"), false⟩
    (by decide) rfl (by decide)).1

/-! ### C8 -/

/-- A reachable-looking state holding one stored message from alice to bob,
with alice online and bound to socket 1. -/
def sampleStateWithMsg : ServerState :=
  ⟨⟨sampleDb.users, [⟨"alice", "bob", "hi", 0⟩], 1⟩,
   [("alice", ⟨1, true⟩)], [(1, "alice")]⟩

/-- C8, counterexample: in src/unnamed/part_000 an authenticated
load-messages request with `withUser` absent answers `chat history` with the
empty list even though the store holds a message in which the bound username
is the sender. -/
theorem part000_load_all_messages_empty :
    (Part000.loadMessagesHandler sampleStateWithMsg 1 none =
      (sampleStateWithMsg, [Act.emitChatHistory 1 []])) ∧
    ((⟨"alice", "bob", "hi", 0⟩ : MessageRow) ∈
      sampleStateWithMsg.db.messages) := by decide

/-- C8 (amended): in src/index.js, the history query with `withUser` absent
returns a timestamp-ascending sequence containing exactly the (views of the)
stored messages in which the given username is the sender or the receiver,
and it returns the empty sequence, never an error, when no row matches; in
src/unnamed/part_000, a load with `withUser` absent instead returns the
empty list unconditionally. -/
theorem load_history_characterization (db : Db) (u : String) :
    ((loadPrivateMessageHistory u none db).Pairwise
      (fun a b => a.timestamp ≤ b.timestamp)) ∧
    (∀ m : HistMsg, m ∈ loadPrivateMessageHistory u none db ↔
      ∃ row ∈ db.messages,
        (row.sender = u ∨ row.receiver = u) ∧ m = msgView row) ∧
    ((∀ row ∈ db.messages, row.sender ≠ u ∧ row.receiver ≠ u) →
      loadPrivateMessageHistory u none db = []) ∧
    (Part000.loadPrivateMessageHistory u none db = []) := by
  refine ⟨?_, ?_, ?_, rfl⟩
  · exact List.Pairwise.map msgView (fun a b h => h)
      (List.sorted_insertionSort
        (fun a b : MessageRow => a.timestamp ≤ b.timestamp) _)
  · intro m
    simp only [loadPrivateMessageHistory, sortByTimestamp, List.mem_map,
      List.mem_insertionSort, List.mem_filter, Bool.or_eq_true, beq_iff_eq]
    constructor
    · rintro ⟨row, ⟨h1, h2⟩, h3⟩
      exact ⟨row, h1, h2, h3.symm⟩
    · rintro ⟨row, h1, h2, h3⟩
      exact ⟨row, ⟨h1, h2⟩, h3.symm⟩
  · intro h
    have hf : db.messages.filter
        (fun r => r.sender == u || r.receiver == u) = [] := by
      rw [List.filter_eq_nil_iff]
      intro row hrow
      obtain ⟨h1, h2⟩ := h row hrow
      simp [h1, h2]
    simp [loadPrivateMessageHistory, sortByTimestamp, hf]

/-- Witness for C8's amended theorem: the message from alice to bob is in
alice's all-messages history on the one-message database. -/
theorem load_history_characterization_witness :
    msgView ⟨"alice", "bob", "hi", 0⟩ ∈
      loadPrivateMessageHistory "alice" none sampleStateWithMsg.db :=
  ((load_history_characterization sampleStateWithMsg.db "alice").2.1 _).mpr
    ⟨⟨"alice", "bob", "hi", 0⟩, by decide, Or.inl rfl, rfl⟩

/-! ### C9 -/

/-- The chat-message handler of src/index.js always extends the message
table with the row (bound username, receiver, body, store clock), whatever
the presence map says. -/
theorem chatMessage_db (s : ServerState) (sid : Nat) (toUser msg u : String)
    (hb : s.sockets.lookup sid = some u) :
    (chatMessageHandler s sid toUser msg).1.db = insertMessage s.db u toUser msg := by
  cases hl : s.users.lookup toUser with
  | none => simp [chatMessageHandler, hb, hl]
  | some entry =>
    cases ho : entry.online with
    | true => simp [chatMessageHandler, hb, hl, ho]
    | false => simp [chatMessageHandler, hb, hl, ho]

/-- C9: the conversation view is symmetric — querying the history between
u1 and u2 returns the same sequence as between u2 and u1 on any database —
and after an authenticated send of body x from a to b, the conversation
history between a and b contains the message with sender a, receiver b,
body x and the store-assigned timestamp. -/
theorem send_history_inclusion_and_symmetry
    (s : ServerState) (sid : Nat) (a b x : String)
    (hb : s.sockets.lookup sid = some a) :
    (∀ (db : Db) (u1 u2 : String),
      loadPrivateMessageHistory u1 (some u2) db =
        loadPrivateMessageHistory u2 (some u1) db) ∧
    msgView ⟨a, b, x, s.db.now⟩ ∈
      loadPrivateMessageHistory a (some b)
        (chatMessageHandler s sid b x).1.db := by
  constructor
  · intro db u1 u2
    have hf : db.messages.filter (fun r =>
        (r.sender == u1 && r.receiver == u2) ||
        (r.sender == u2 && r.receiver == u1)) =
      db.messages.filter (fun r =>
        (r.sender == u2 && r.receiver == u1) ||
        (r.sender == u1 && r.receiver == u2)) :=
      List.filter_congr (fun r _ => Bool.or_comm _ _)
    simp only [loadPrivateMessageHistory]
    rw [hf]
  · rw [chatMessage_db s sid b x a hb]
    simp only [loadPrivateMessageHistory, sortByTimestamp, List.mem_map,
      List.mem_insertionSort]
    refine ⟨⟨a, b, x, s.db.now⟩, ?_, rfl⟩
    simp [insertMessage, List.mem_filter]

/-- Witness for C9 in the two-user scenario: alice sends "hi" to bob, and
the alice-bob conversation contains it. -/
theorem send_history_inclusion_and_symmetry_witness :
    msgView ⟨"alice", "bob", "hi", 0⟩ ∈
      loadPrivateMessageHistory "alice" (some "bob")
        (chatMessageHandler sampleState 1 "bob" "hi").1.db :=
  (send_history_inclusion_and_symmetry sampleState 1 "alice" "bob" "hi"
    (by decide)).2

/-! ### C10 -/

/-- C10: an authenticated send to an arbitrary receiver string is persisted
and echoed even when no User with that name exists in the Credential Store;
the stored row is then returned by the all-messages history query for that
receiver name. -/
theorem unvalidated_receiver_persist_echo
    (s : ServerState) (sid : Nat) (toUser msg u : String)
    (hb : s.sockets.lookup sid = some u)
    (habs : ∀ r ∈ s.db.users, r.username ≠ toUser) :
    ((⟨u, toUser, msg, s.db.now⟩ : MessageRow) ∈
      (chatMessageHandler s sid toUser msg).1.db.messages) ∧
    (Act.emitChatMessage sid ⟨u, toUser, msg, none⟩ ∈
      (chatMessageHandler s sid toUser msg).2) ∧
    (msgView ⟨u, toUser, msg, s.db.now⟩ ∈
      loadPrivateMessageHistory toUser none
        (chatMessageHandler s sid toUser msg).1.db) := by
  refine ⟨?_, ?_, ?_⟩
  · rw [chatMessage_db s sid toUser msg u hb]
    simp [insertMessage]
  · cases hl : s.users.lookup toUser with
    | none => simp [chatMessageHandler, hb, hl]
    | some entry =>
      cases ho : entry.online with
      | true => simp [chatMessageHandler, hb, hl, ho]
      | false => simp [chatMessageHandler, hb, hl, ho]
  · rw [chatMessage_db s sid toUser msg u hb]
    simp only [loadPrivateMessageHistory, sortByTimestamp, List.mem_map,
      List.mem_insertionSort]
    refine ⟨⟨u, toUser, msg, s.db.now⟩, ?_, rfl⟩
    simp [insertMessage, List.mem_filter]

/-- Witness for C10: alice sends to "carol", a name no User in the sample
store has; the row is persisted. -/
theorem unvalidated_receiver_persist_echo_witness :
    (⟨"alice", "carol", "xyz", 0⟩ : MessageRow) ∈
      (chatMessageHandler sampleState 1 "carol" "xyz").1.db.messages :=
  (unvalidated_receiver_persist_echo sampleState 1 "carol" "xyz" "alice"
    (by decide) (by decide)).1

/-! ### C4: the registry/store consistency invariant and the roster -/

theorem Inv_initState (db0 : Db) : Inv (initState db0) := by
  intro r _ entry he
  simp [initState, List.lookup] at he

/-- Updating the stored online flag and the presence entry of the same
username to the same flag preserves the consistency invariant, for any
socket map. -/
theorem Inv_mk_setOnline_regSet (s : ServerState) (sk : List (Nat × String))
    (u : String) (es : Nat) (b : Bool) (h : Inv s) :
    Inv ⟨setOnline s.db u b, regSet s.users u ⟨es, b⟩, sk⟩ := by
  intro r hr entry he
  simp only [setOnline, List.mem_map] at hr
  obtain ⟨r0, hr0, rfl⟩ := hr
  by_cases hru : r0.username = u
  · have hb : (r0.username == u) = true := by simp [hru]
    simp only [hb, if_true] at he ⊢
    have he' : (regSet s.users u ⟨es, b⟩).lookup u = some entry := by
      simpa [hru] using he
    rw [lookup_regSet_self] at he'
    injection he' with h2
    subst h2
    rfl
  · have hb : (r0.username == u) = false := by simp [hru]
    simp only [hb, Bool.false_eq_true, if_false] at he ⊢
    rw [lookup_regSet_ne s.users u r0.username ⟨es, b⟩ hru] at he
    exact h r0 hr0 entry he

theorem Inv_loginHandler (s : ServerState) (sid : Nat)
    (username password : String) (e : LoginErr) (h : Inv s) :
    Inv (loginHandler s sid username password e).1 := by
  cases e with
  | selectFails => exact h
  | noErr =>
    cases hf : findUser s.db username with
    | none => simp only [loginHandler, hf]; exact h
    | some user =>
      cases hp : user.password with
      | none => simp only [loginHandler, hf, hp]; exact h
      | some hh =>
        cases hc : bcryptCompare password hh with
        | false => simp only [loginHandler, hf, hp, hc]; exact h
        | true =>
          simp only [loginHandler, hf, hp, hc, if_true]
          exact Inv_mk_setOnline_regSet s (sockSet s.sockets sid username)
            username sid true h
  | updateFails =>
    cases hf : findUser s.db username with
    | none => simp only [loginHandler, hf]; exact h
    | some user =>
      cases hp : user.password with
      | none => simp only [loginHandler, hf, hp]; exact h
      | some hh =>
        cases hc : bcryptCompare password hh with
        | false => simp only [loginHandler, hf, hp, hc]; exact h
        | true => simp only [loginHandler, hf, hp, hc, if_true]; exact h

theorem Inv_setupPasswordHandler (s : ServerState) (sid : Nat)
    (username password : String) (fails : Bool) (h : Inv s) :
    Inv (setupPasswordHandler s sid username password fails).1 := by
  cases fails with
  | true => exact h
  | false =>
    intro r hr entry he
    simp only [setupPasswordHandler, Bool.false_eq_true, if_false,
      setPassword, List.mem_map] at hr
    obtain ⟨r0, hr0, rfl⟩ := hr
    by_cases hru : r0.username = username
    · have hb : (r0.username == username) = true := by simp [hru]
      simp only [hb, if_true] at he ⊢
      exact h r0 hr0 entry he
    · have hb : (r0.username == username) = false := by simp [hru]
      simp only [hb, if_false] at he ⊢
      exact h r0 hr0 entry he

theorem Inv_chatMessageHandler (s : ServerState) (sid : Nat)
    (toUser msg : String) (h : Inv s) :
    Inv (chatMessageHandler s sid toUser msg).1 := by
  cases hl : s.sockets.lookup sid with
  | none => simp only [chatMessageHandler, hl]; exact h
  | some u =>
    simp only [chatMessageHandler, hl]
    intro r hr entry he
    exact h r hr entry he

theorem Inv_loadMessagesHandler (s : ServerState) (sid : Nat)
    (user : Option String) (h : Inv s) :
    Inv (loadMessagesHandler s sid user).1 := by
  cases hl : s.sockets.lookup sid with
  | none => simp only [loadMessagesHandler, hl]; exact h
  | some u => simp only [loadMessagesHandler, hl]; exact h

theorem Inv_disconnectHandler (s : ServerState) (sid : Nat) (fails : Bool)
    (h : Inv s) : Inv (disconnectHandler s sid fails).1 := by
  cases hl : s.sockets.lookup sid with
  | none => simp only [disconnectHandler, hl]; exact h
  | some u =>
    cases fails with
    | true => simp only [disconnectHandler, hl, if_true]; exact h
    | false =>
      simp only [disconnectHandler, hl, Bool.false_eq_true, if_false]
      cases hru : s.users.lookup u with
      | some entry =>
        simp only [hru]
        exact Inv_mk_setOnline_regSet s (sockRemove s.sockets sid) u
          entry.socketId false h
      | none =>
        simp only [hru]
        intro r hr entry he
        simp only [setOnline, List.mem_map] at hr
        obtain ⟨r0, hr0, rfl⟩ := hr
        by_cases hru2 : r0.username = u
        · have hb : (r0.username == u) = true := by simp [hru2]
          simp only [hb, if_true] at he ⊢
          rw [show ({r0 with online := false} : UserRow).username = r0.username
              from rfl, hru2, hru] at he
          cases he
        · have hb : (r0.username == u) = false := by simp [hru2]
          simp only [hb, if_false] at he ⊢
          exact h r0 hr0 entry he

theorem Inv_step (s : ServerState) (ev : Event) (h : Inv s) :
    Inv (step s ev).1 := by
  cases ev with
  | login sid u p e => exact Inv_loginHandler s sid u p e h
  | setupPassword sid u p f => exact Inv_setupPasswordHandler s sid u p f h
  | chatMessage sid t m => exact Inv_chatMessageHandler s sid t m h
  | loadMessages sid user => exact Inv_loadMessagesHandler s sid user h
  | disconnect sid f => exact Inv_disconnectHandler s sid f h

theorem Inv_run (db0 : Db) (evs : List Event) : Inv (run db0 evs) := by
  suffices hgen : ∀ s : ServerState, Inv s →
      Inv (evs.foldl (fun s ev => (step s ev).1) s) by
    exact hgen (initState db0) (Inv_initState db0)
  induction evs with
  | nil => intro s hs; exact hs
  | cons ev t ih => intro s hs; exact ih ((step s ev).1) (Inv_step s ev hs)

/-- Under the consistency invariant the spec's roster (registry flag when
present, stored flag otherwise) coincides with what the code broadcasts
(the stored flags). -/
theorem rosterFromSpec_eq_updateUsersList (s : ServerState) (h : Inv s) :
    rosterFromSpec s.db s.users = updateUsersList s.db := by
  unfold rosterFromSpec updateUsersList
  apply List.map_congr_left
  intro r hr
  cases he : s.users.lookup r.username with
  | none => simp
  | some entry => simp [h r hr entry he]

/-- Every users-list broadcast any handler produces carries exactly the
stored (username, online) pairs of the database as it is when the broadcast
fires, which is the post-state database. -/
theorem broadcast_content (s : ServerState) (ev : Event)
    (l : List (String × Bool))
    (hmem : Act.usersListBroadcast l ∈ (step s ev).2) :
    l = updateUsersList (step s ev).1.db := by
  cases ev with
  | login sid username password e =>
    cases e with
    | selectFails => simp [step, loginHandler] at hmem
    | noErr =>
      cases hf : findUser s.db username with
      | none => simp [step, loginHandler, hf] at hmem
      | some user =>
        cases hp : user.password with
        | none => simp [step, loginHandler, hf, hp] at hmem
        | some hh =>
          cases hc : bcryptCompare password hh with
          | false => simp [step, loginHandler, hf, hp, hc] at hmem
          | true =>
            simp [step, loginHandler, hf, hp, hc] at hmem
            rw [hmem]
            simp [step, loginHandler, hf, hp, hc]
    | updateFails =>
      cases hf : findUser s.db username with
      | none => simp [step, loginHandler, hf] at hmem
      | some user =>
        cases hp : user.password with
        | none => simp [step, loginHandler, hf, hp] at hmem
        | some hh =>
          cases hc : bcryptCompare password hh with
          | false => simp [step, loginHandler, hf, hp, hc] at hmem
          | true => simp [step, loginHandler, hf, hp, hc] at hmem
  | setupPassword sid username password fails =>
    cases fails with
    | true => simp [step, setupPasswordHandler] at hmem
    | false => simp [step, setupPasswordHandler] at hmem
  | chatMessage sid toUser msg =>
    cases hl : s.sockets.lookup sid with
    | none => simp [step, chatMessageHandler, hl] at hmem
    | some u =>
      cases hlt : s.users.lookup toUser with
      | none => simp [step, chatMessageHandler, hl, hlt] at hmem
      | some entry =>
        cases ho : entry.online with
        | true => simp [step, chatMessageHandler, hl, hlt, ho] at hmem
        | false => simp [step, chatMessageHandler, hl, hlt, ho] at hmem
  | loadMessages sid user =>
    cases hl : s.sockets.lookup sid with
    | none => simp [step, loadMessagesHandler, hl] at hmem
    | some u => simp [step, loadMessagesHandler, hl] at hmem
  | disconnect sid fails =>
    cases hl : s.sockets.lookup sid with
    | none => simp [step, disconnectHandler, hl] at hmem
    | some u =>
      cases fails with
      | true => simp [step, disconnectHandler, hl] at hmem
      | false =>
        cases hru : s.users.lookup u with
        | none =>
          simp [step, disconnectHandler, hl, hru] at hmem
        | some entry =>
          simp [step, disconnectHandler, hl, hru] at hmem
          rw [hmem]
          simp [step, disconnectHandler, hl, hru]

/-- C4: every users-list roster broadcast produced while processing any
event from any reachable state pushes, for every User row in the Credential
Store, the pair (username, flag) prescribed by the spec — the Presence
Registry's flag when an entry for that username is present, the stored flag
otherwise — evaluated at the state at the moment of the broadcast; in
particular every username that has both a user row and a presence entry
appears in the broadcast with exactly the registry's current online flag. -/
theorem roster_broadcast_agrees_with_registry
    (db0 : Db) (evs : List Event) (ev : Event) (l : List (String × Bool))
    (hmem : Act.usersListBroadcast l ∈ (step (run db0 evs) ev).2) :
    l = rosterFromSpec (step (run db0 evs) ev).1.db
          (step (run db0 evs) ev).1.users ∧
    (∀ (u : String) (entry : PresenceEntry),
      (step (run db0 evs) ev).1.users.lookup u = some entry →
      ∀ r ∈ (step (run db0 evs) ev).1.db.users, r.username = u →
      (u, entry.online) ∈ l) := by
  have hpre : Inv (run db0 evs) := Inv_run db0 evs
  have hpost : Inv (step (run db0 evs) ev).1 := Inv_step _ ev hpre
  have hl : l = updateUsersList (step (run db0 evs) ev).1.db :=
    broadcast_content _ ev l hmem
  constructor
  · rw [hl, rosterFromSpec_eq_updateUsersList _ hpost]
  · intro u entry he r hr hru
    subst hru
    have ho : entry.online = r.online := hpost r hr entry he
    rw [hl, ho]
    exact List.mem_map_of_mem _ hr

/-- Witness for C4: alice's login from the initial sample state fires a
roster broadcast showing alice online and bob offline, matching the
spec roster. -/
theorem roster_broadcast_agrees_with_registry_witness :
    Act.usersListBroadcast [("alice", true), ("bob", false)] ∈
      (step (run sampleDb []) (Event.login 1 "alice" "pw1"
        LoginErr.noErr)).2 ∧
    [("alice", true), ("bob", false)] =
      rosterFromSpec
        (step (run sampleDb []) (Event.login 1 "alice" "pw1"
          LoginErr.noErr)).1.db
        (step (run sampleDb []) (Event.login 1 "alice" "pw1"
          LoginErr.noErr)).1.users :=
  ⟨by decide,
   (roster_broadcast_agrees_with_registry sampleDb []
     (Event.login 1 "alice" "pw1" LoginErr.noErr)
     [("alice", true), ("bob", false)] (by decide)).1⟩

end WebChat
